import Mathlib

/-!
Verification of the SEC filings dashboard (two Python source variants:
`app.py` and `bmnr_real_time_sec_filings_dashboard_streamlit_app.py`).

Shallow embedding conventions:
- Document texts are `List Char`; Python slicing `text[:n]` is `List.take n`.
- Python `re.search(pat, s, re.IGNORECASE)` over the fixed keyword patterns is
  embedded by `reSearchIC`: every pattern in `KEY_PATTERNS` is an alternation
  of plain literal terms plus the `Item\s*N.0M` item-number forms, so a tiny
  matcher over literal tokens and a greedy whitespace-run token is exact for
  these patterns (the token following a whitespace run is never whitespace,
  so greedy matching agrees with regex backtracking).
- Python `\d` / `\D` are modelled over ASCII digits (`Char.isDigit`), and
  ASCII case folding models `re.IGNORECASE`; the patterns and all inputs of
  interest are ASCII.
- Network calls, HTML parsing and `time.sleep` are modelled by passing the
  would-be result in as a parameter (the fetched/extracted text, the AI
  completion as an `Except` oracle); the repository code around them is
  embedded faithfully.
-/

/-- Case folding of an ASCII character code, as a code point. -/
def lowerNat (c : Char) : Nat :=
  if 65 ≤ c.toNat ∧ c.toNat ≤ 90 then c.toNat + 32 else c.toNat

/-- Case-insensitive character equality (models `re.IGNORECASE` on ASCII). -/
def charEqIC (a b : Char) : Bool := lowerNat a == lowerNat b

/-- Whitespace class of Python's `\s` (ASCII part). -/
def isPyWS (c : Char) : Bool :=
  c == ' ' || c == '\t' || c == '\n' || c == '\r' || c == '\x0b' || c == '\x0c'

/-- One token of a keyword pattern: a literal (matched case-insensitively) or
a whitespace run `\s*`. -/
inductive RTok where
  | lit : String → RTok
  | ws : RTok

/-- Match a literal, case-insensitively, as a prefix; return the rest. -/
def litMatch : List Char → List Char → Option (List Char)
  | [], s => some s
  | _ :: _, [] => none
  | p :: ps, c :: cs => if charEqIC p c then litMatch ps cs else none

/-- Match a token sequence at the start of `s`. The `\s*` token consumes the
maximal whitespace run; exact for the source patterns, where the next token
never starts with whitespace. -/
def toksMatch : List RTok → List Char → Bool
  | [], _ => true
  | .lit l :: ts, s =>
    match litMatch l.data s with
    | some rest => toksMatch ts rest
    | none => false
  | .ws :: ts, s => toksMatch ts (s.dropWhile isPyWS)

/-- Search for a token-sequence match at any position (models `re.search`). -/
def searchToks (ts : List RTok) : List Char → Bool
  | [] => toksMatch ts []
  | c :: cs => toksMatch ts (c :: cs) || searchToks ts cs

/-- Case-insensitive search of an alternation of token sequences. -/
def reSearchIC (alts : List (List RTok)) (s : List Char) : Bool :=
  alts.any (fun ts => searchToks ts s)

/-- Pattern `KEY_PATTERNS["financing"]` (identical in both source files). -/
def financingPat : List (List RTok) :=
  [[.lit "ATM"], [.lit "at-the-market"], [.lit "equity offering"],
   [.lit "registered direct"], [.lit "PIPE"], [.lit "warrant"],
   [.lit "convertible"], [.lit "shelf registration"], [.lit "S-3"],
   [.lit "ASR"], [.lit "capital raise"]]

/-- Pattern `KEY_PATTERNS["insider"]`. -/
def insiderPat : List (List RTok) :=
  [[.lit "Form 4"], [.lit "beneficial owner"], [.lit "officer"],
   [.lit "director"], [.lit "grant"], [.lit "option"],
   [.lit "restricted stock"], [.lit "RSU"]]

/-- Pattern `KEY_PATTERNS["crypto"]`. -/
def cryptoPat : List (List RTok) :=
  [[.lit "Bitcoin"], [.lit "BTC"], [.lit "Ethereum"], [.lit "ETH"],
   [.lit "hashrate"], [.lit "miners"], [.lit "mining"], [.lit "immersion"],
   [.lit "wallet"], [.lit "custody"]]

/-- Pattern `KEY_PATTERNS["buyback"]`. -/
def buybackPat : List (List RTok) :=
  [[.lit "repurchase"], [.lit "buyback"], [.lit "issuer repurchases"],
   [.lit "ASC 505-30"]]

/-- Pattern `KEY_PATTERNS["guidance"]`. -/
def guidancePat : List (List RTok) :=
  [[.lit "outlook"], [.lit "guidance"], [.lit "reaffirm"], [.lit "update"],
   [.lit "forward-looking"]]

/-- Pattern `KEY_PATTERNS["material"]` (the `Item\s*N.0M` alternatives use a
literal, then `\s*`, then the item number with a literal dot). -/
def materialPat : List (List RTok) :=
  [[.lit "Item", .ws, .lit "1.01"], [.lit "Material Definitive Agreement"],
   [.lit "Item", .ws, .lit "2.01"], [.lit "acquisition"], [.lit "disposition"],
   [.lit "Item", .ws, .lit "3.02"], [.lit "unregistered"],
   [.lit "Item", .ws, .lit "5.02"], [.lit "departure"], [.lit "appointment"],
   [.lit "Item", .ws, .lit "5.07"], [.lit "shareholder"], [.lit "vote"]]

/-- The six boolean category hits (`hits` in both classifier variants). -/
structure Hits where
  financing : Bool
  insider : Bool
  crypto : Bool
  buyback : Bool
  guidance : Bool
  material : Bool
deriving DecidableEq, Repr

/-- The per-category regex hits over the first 4000 characters:
`snippet = text[:4000] if text else ""` followed by
`hits = {k: bool(re.search(p, snippet, re.IGNORECASE)) for k, p in KEY_PATTERNS.items()}`
(identical in both source files). -/
def signalHits (text : List Char) : Hits :=
  let snippet := text.take 4000
  { financing := reSearchIC financingPat snippet
    insider := reSearchIC insiderPat snippet
    crypto := reSearchIC cryptoPat snippet
    buyback := reSearchIC buybackPat snippet
    guidance := reSearchIC guidancePat snippet
    material := reSearchIC materialPat snippet }

/-- Result record of `rule_summary` in `app.py`. -/
structure RuleSummary where
  impact : String
  headline : String
  bullets : List String
deriving DecidableEq, Repr

/-- `rule_summary(form, text)` of `app.py` (lines 113–135), embedded
clause by clause: sequential score updates, tiered impact, headline with
priority-ordered suffix, bullets in fixed category order. -/
def rule_summary (form : String) (text : List Char) : RuleSummary :=
  let hits := signalHits text
  let score : Int := 0
  let score := if hits.buyback then score + 2 else score
  let score := if hits.financing then score - 2 else score
  let score := if hits.material then score + 1 else score
  let impact := if score ≥ 2 then "Positive"
    else if score ≤ -2 then "Negative" else "Neutral"
  let headline := form ++ ": " ++ impact ++ " — " ++
    (if hits.buyback then "buyback mentioned"
     else if hits.financing then "financing/dilution signals"
     else if hits.material then "material agreement or event"
     else if hits.insider then "insider/ownership update"
     else "no strong signal")
  let bullets :=
    (if hits.material then ["Material item(s) indicated (e.g., Item 1.01/2.01/5.02/5.07)."] else []) ++
    (if hits.financing then ["Financing activity detected (ATM/PIPE/warrants/shelf). Potential dilution risk."] else []) ++
    (if hits.buyback then ["Repurchase/buyback language detected."] else []) ++
    (if hits.insider then ["Insider/beneficial ownership or equity grants referenced."] else []) ++
    (if hits.crypto then ["Crypto/mining references present (BTC/ETH/hashrate)."] else []) ++
    (if hits.guidance then ["Guidance/outlook language present."] else [])
  { impact := impact, headline := headline, bullets := bullets }

/-- Result record of `generate_rule_based_summary` in the BMNR variant
(it additionally returns the hit flags). -/
structure RuleSummary2 where
  impact : String
  headline : String
  bullets : List String
  flags : Hits
deriving DecidableEq, Repr

/-- `generate_rule_based_summary(form, text)` of the BMNR variant
(lines 121–148): same hits and scoring (its `insider`/`crypto` lines add 0),
bullets first, then the headline built by `if`/`elif` chain. -/
def generate_rule_based_summary (form : String) (text : List Char) : RuleSummary2 :=
  let hits := signalHits text
  let score : Int := 0
  let score := if hits.buyback then score + 2 else score
  let score := if hits.financing then score - 2 else score
  let score := if hits.material then score + 1 else score
  let score := if hits.insider then score - 0 else score
  let score := if hits.crypto then score + 0 else score
  let impact := if score ≥ 2 then "Positive"
    else if score ≤ -2 then "Negative" else "Neutral"
  let bullets :=
    (if hits.material then ["Material item(s) indicated (e.g., Item 1.01/2.01/5.02/5.07)."] else []) ++
    (if hits.financing then ["Financing activity detected (ATM/PIPE/warrants/shelf). Potential dilution risk."] else []) ++
    (if hits.buyback then ["Repurchase/buyback language detected."] else []) ++
    (if hits.insider then ["Insider/beneficial ownership or equity grants referenced."] else []) ++
    (if hits.crypto then ["Crypto/mining references present (BTC/ETH/hashrate)."] else []) ++
    (if hits.guidance then ["Guidance/outlook language present."] else [])
  let headline := form ++ ": " ++ impact ++ " — " ++
    (if hits.buyback then "buyback mentioned"
     else if hits.financing then "financing/dilution signals"
     else if hits.material then "material agreement or event"
     else if hits.insider then "insider/ownership update"
     else "no strong signal")
  { impact := impact, headline := headline, bullets := bullets, flags := hits }

/-- Python `str.zfill(w)`: left-pad with `'0'` to width `w`; a string already
at least `w` long is returned unchanged (no sign handling is needed here,
the input is digits-only). -/
def zfill (w : Nat) (s : List Char) : List Char :=
  List.replicate (w - s.length) '0' ++ s

/-- `pad_cik(cik)` (identical in both source files):
`s = re.sub(r"\D", "", cik or "")` keeps exactly the digit characters, then
`return s.zfill(10) if s else ""`. -/
def pad_cik (cik : String) : String :=
  let s := cik.data.filter Char.isDigit
  if s.isEmpty then "" else ⟨zfill 10 s⟩

/-- Final step of `get_primary_doc_text` in `app.py`: the fetched and
BeautifulSoup-extracted visible text (passed in as `extracted`; the HTTP GET
and HTML parsing are external effects) is truncated by `[:400000]`. -/
def get_primary_doc_text (extracted : List Char) : List Char :=
  extracted.take 400000

/-- Final step of `get_primary_doc_text` in the BMNR variant: truncation by
`[:500000]`. -/
def get_primary_doc_text_bmnr (extracted : List Char) : List Char :=
  extracted.take 500000

/-- Body of `ai_summarize_cached` in `app.py` (lines 168–195), with the
OpenAI chat completion modelled as an `Except Unit String` oracle (`.ok s`:
the stripped completion text; `.error ()`: any raised exception).
`if not api_key or not OpenAI: return ""`, then the `try`/`except` returns
the completion or `""` — the body never raises. -/
def ai_summarize_body (api_key : String) (openAIAvail : Bool)
    (oracle : Except Unit String) : String :=
  if api_key = "" ∨ openAIAvail = false then ""
  else
    match oracle with
    | .ok s => s
    | .error _ => ""

/-- Modelled from the spec: the `st.cache_data` memoization layer (external
library code, not part of this repository). Lookup: first entry with the
key; a hit is fresh when `now < insertion + ttl`. -/
def cacheGet {K V : Type} [DecidableEq K] (ttl now : Nat)
    (c : List (K × V × Nat)) (k : K) : Option V :=
  match c with
  | [] => none
  | (k', v, t) :: rest =>
    if k' = k then (if now < t + ttl then some v else none)
    else cacheGet ttl now rest k

/-- Modelled from the spec: one `st.cache_data` call. On a fresh hit the
cached value is returned and the producer is not invoked (flag `false`);
on a miss the producer runs: a returned value is stored (flag `true`),
a raised exception propagates and nothing is stored. -/
def cachedCall {K V E : Type} [DecidableEq K] (ttl now : Nat)
    (c : List (K × V × Nat)) (k : K) (producer : Except E V) :
    Except E (V × List (K × V × Nat) × Bool) :=
  match cacheGet ttl now c k with
  | some v => .ok (v, c, false)
  | none =>
    match producer with
    | .ok v => .ok (v, (k, v, now) :: c, true)
    | .error e => .error e

/-- Cache key of `ai_summarize_cached`: all its arguments
`(accession, form, excerpt, model, api_key)`. -/
abbrev AIKey := String × String × String × String × String

/-- The cached AI summarizer as one step of the memoized store: since
`ai_summarize_body` never raises, its producer is always `.ok`, so every
result — the empty string from a failed call included — is stored on a miss.
Returns (value, new cache, whether the producer ran). -/
def ai_summarize_cached (ttl now : Nat) (c : List (AIKey × String × Nat))
    (accession form excerpt model api_key : String) (openAIAvail : Bool)
    (oracle : Except Unit String) : String × List (AIKey × String × Nat) × Bool :=
  match cachedCall ttl now c (accession, form, excerpt, model, api_key)
      (Except.ok (ai_summarize_body api_key openAIAvail oracle) :
        Except Empty String) with
  | .ok r => r
  | .error e => nomatch e

/-- `ai_one_paragraph(accession, form, full_text, model, delay_s)` of
`app.py` (lines 197–203): read the credential (passed in as `api_key`),
return `""` when it or the OpenAI package is absent, else sleep (a pure
no-op here), take the 6000-character excerpt and return the value of the
cached summarizer on the current cache. -/
def ai_one_paragraph (ttl now : Nat) (c : List (AIKey × String × Nat))
    (api_key : String) (openAIAvail : Bool)
    (accession form : String) (full_text : List Char) (model : String)
    (_delay_s : Int) (oracle : Except Unit String) : String :=
  if api_key = "" ∨ openAIAvail = false then ""
  else
    let excerpt : String := ⟨full_text.take 6000⟩
    (ai_summarize_cached ttl now c accession form excerpt model api_key
      openAIAvail oracle).1

/-- Per-filing outcome of the render loop in `app.py`. -/
structure RenderOut where
  attemptedAI : Bool
  usedAI : Bool
  para : String
deriving DecidableEq, Repr

/-- The summary part of the render loop of `app.py` (lines 271–309) over the
displayed filings, each given as (what `ai_one_paragraph` returns for it,
its rule-based paragraph `compact_paragraph_from_rule(rs)`):
`used_ai, para = False, ""`; `if use_ai and ai_calls < max_ai: p = ai_one_paragraph(…)`;
`if p: para, used_ai = p, True; ai_calls += 1`; `if not para: para = compact_paragraph_from_rule(rs)`. -/
def renderLoop (use_ai : Bool) (max_ai : Nat) :
    Nat → List (String × String) → List RenderOut
  | _, [] => []
  | ai_calls, (aiP, ruleP) :: rest =>
    let attempt := use_ai && decide (ai_calls < max_ai)
    let p := if attempt then aiP else ""
    { attemptedAI := attempt
      usedAI := p != ""
      para := if p = "" then ruleP else p } ::
      renderLoop use_ai max_ai (if p = "" then ai_calls else ai_calls + 1) rest

/-- Score formula in the words of the claim: +2 for a buyback hit, −2 for a
financing hit, +1 for a material hit, all other categories 0. -/
def claimScore (h : Hits) : Int :=
  (if h.buyback then 2 else 0) + (if h.financing then -2 else 0) +
    (if h.material then 1 else 0)

/-- Impact thresholds in the words of the claim: Positive iff score ≥ 2,
Negative iff score ≤ −2, Neutral otherwise. -/
def claimImpact (s : Int) : String :=
  if 2 ≤ s then "Positive" else if s ≤ -2 then "Negative" else "Neutral"

/-- Headline suffix in the words of the claim: chosen solely by the priority
order buyback > financing > material > insider > "no strong signal" over the
boolean hits. -/
def prioritySuffix (h : Hits) : String :=
  if h.buyback then "buyback mentioned"
  else if h.financing then "financing/dilution signals"
  else if h.material then "material agreement or event"
  else if h.insider then "insider/ownership update"
  else "no strong signal"

/-- Helper: the classifier output depends on the text only through the six
boolean hits. -/
theorem rule_summary_congr (form : String) {t₁ t₂ : List Char}
    (h : signalHits t₁ = signalHits t₂) :
    rule_summary form t₁ = rule_summary form t₂ := by
  unfold rule_summary; rw [h]

/-- Helper: the BMNR classifier output depends on the text only through the
six boolean hits. -/
theorem generate_rule_based_summary_congr (form : String) {t₁ t₂ : List Char}
    (h : signalHits t₁ = signalHits t₂) :
    generate_rule_based_summary form t₁ = generate_rule_based_summary form t₂ := by
  unfold generate_rule_based_summary; rw [h]

/-- Claim C1: for every form and text, both classifier variants compute the
six boolean hits case-insensitively over the first 4000 characters (that is
`signalHits` by construction), and the impact equals the claim's formula:
score = (+2 if buyback) + (−2 if financing) + (+1 if material), the other
categories contributing 0, with Positive iff score ≥ 2, Negative iff
score ≤ −2, Neutral otherwise. -/
theorem impact_eq_claim_score (form : String) (text : List Char) :
    (rule_summary form text).impact = claimImpact (claimScore (signalHits text)) ∧
    (generate_rule_based_summary form text).impact =
      claimImpact (claimScore (signalHits text)) := by
  unfold rule_summary generate_rule_based_summary claimImpact claimScore
  cases hsig : signalHits text with
  | mk f i c b g m =>
    cases f <;> cases i <;> cases c <;> cases b <;> cases g <;> cases m <;>
      exact ⟨rfl, rfl⟩

/-- Claim C5: the classifier is a total function; for every input text
(the empty string included) the impact is one of exactly Positive, Neutral,
Negative, in both variants, and the whole result is determined by the input —
texts with the same six boolean hits get the same impact, headline and
bullets. -/
theorem classifier_total_and_deterministic :
    (∀ (form : String) (text : List Char),
      ((rule_summary form text).impact = "Positive" ∨
        (rule_summary form text).impact = "Neutral" ∨
        (rule_summary form text).impact = "Negative") ∧
      ((generate_rule_based_summary form text).impact = "Positive" ∨
        (generate_rule_based_summary form text).impact = "Neutral" ∨
        (generate_rule_based_summary form text).impact = "Negative")) ∧
    (∀ (form : String) (t₁ t₂ : List Char), signalHits t₁ = signalHits t₂ →
      rule_summary form t₁ = rule_summary form t₂ ∧
      generate_rule_based_summary form t₁ = generate_rule_based_summary form t₂) := by
  constructor
  · intro form text
    unfold rule_summary generate_rule_based_summary
    cases hsig : signalHits text with
    | mk f i c b g m =>
      cases f <;> cases i <;> cases c <;> cases b <;> cases g <;> cases m <;>
        exact ⟨by first | exact Or.inl rfl | exact Or.inr (Or.inl rfl) | exact Or.inr (Or.inr rfl),
               by first | exact Or.inl rfl | exact Or.inr (Or.inl rfl) | exact Or.inr (Or.inr rfl)⟩
  · intro form t₁ t₂ h
    exact ⟨rule_summary_congr form h, generate_rule_based_summary_congr form h⟩

/-- Witness for C5 at concrete inputs: two texts differing only in case have
equal hits, hence equal classifier results. -/
theorem classifier_total_and_deterministic_w :
    signalHits ("Bitcoin").data = signalHits ("BITCOIN").data ∧
    rule_summary "8-K" ("Bitcoin").data = rule_summary "8-K" ("BITCOIN").data ∧
    generate_rule_based_summary "8-K" ("Bitcoin").data =
      generate_rule_based_summary "8-K" ("BITCOIN").data :=
  ⟨by decide, (classifier_total_and_deterministic.2 "8-K" ("Bitcoin").data
      ("BITCOIN").data (by decide)).1,
    (classifier_total_and_deterministic.2 "8-K" ("Bitcoin").data
      ("BITCOIN").data (by decide)).2⟩

/-- Claim C8: the extracted plain text returned by the document fetcher is
truncated to the variant's fixed character budget — at most 400000
characters in `app.py`, at most 500000 in the BMNR variant — whatever the
size of the downloaded document. -/
theorem doc_text_bounded (extracted : List Char) :
    (get_primary_doc_text extracted).length ≤ 400000 ∧
    (get_primary_doc_text_bmnr extracted).length ≤ 500000 := by
  constructor <;>
    · simp only [get_primary_doc_text, get_primary_doc_text_bmnr, List.length_take]
      omega

/-- Claim C10: on the text "Bitcoin" only the crypto category hits, and both
classifier variants produce a headline ending in "no strong signal" together
with a non-empty bullets list: the "no strong signal" headline does not mean
that no signal category was detected. -/
theorem no_strong_signal_with_bullets :
    signalHits ("Bitcoin").data =
      { financing := false, insider := false, crypto := true,
        buyback := false, guidance := false, material := false } ∧
    ("no strong signal").data <:+ (rule_summary "8-K" ("Bitcoin").data).headline.data ∧
    (rule_summary "8-K" ("Bitcoin").data).bullets ≠ [] ∧
    ("no strong signal").data <:+
      (generate_rule_based_summary "8-K" ("Bitcoin").data).headline.data ∧
    (generate_rule_based_summary "8-K" ("Bitcoin").data).bullets ≠ [] := by
  refine ⟨by decide, ⟨("8-K: Neutral — ").data, by decide⟩, by decide,
    ⟨("8-K: Neutral — ").data, by decide⟩, by decide⟩

/-- Helper: a buyback hit forces the priority suffix. -/
theorem prioritySuffix_buyback (h : Hits) (hb : h.buyback = true) :
    prioritySuffix h = "buyback mentioned" := by
  simp [prioritySuffix, hb]

/-- Helper: a string is a suffix of any string extended on the left. -/
theorem data_suffix_append (a b : String) : b.data <:+ (a ++ b).data := by
  rw [String.data_append]; exact List.suffix_append _ _

/-- Claim C2: in both classifier variants the headline suffix is chosen
solely by the priority order buyback > financing > material > insider >
"no strong signal" over the boolean hits, independent of the numeric score;
in particular when buyback and financing both hit and material (the only
other scoring category) does not, the impact is Neutral while the headline
ends with "buyback mentioned". -/
theorem headline_priority_independent_of_score :
    (∀ (form : String) (text : List Char),
      (rule_summary form text).headline =
        form ++ ": " ++ (rule_summary form text).impact ++ " — " ++
          prioritySuffix (signalHits text) ∧
      (generate_rule_based_summary form text).headline =
        form ++ ": " ++ (generate_rule_based_summary form text).impact ++ " — " ++
          prioritySuffix (signalHits text)) ∧
    (∀ (form : String) (text : List Char),
      (signalHits text).buyback = true → (signalHits text).financing = true →
      (signalHits text).material = false →
      (rule_summary form text).impact = "Neutral" ∧
      ("buyback mentioned").data <:+ (rule_summary form text).headline.data ∧
      (generate_rule_based_summary form text).impact = "Neutral" ∧
      ("buyback mentioned").data <:+
        (generate_rule_based_summary form text).headline.data) := by
  have h1 : ∀ (form : String) (text : List Char),
      (rule_summary form text).headline =
        form ++ ": " ++ (rule_summary form text).impact ++ " — " ++
          prioritySuffix (signalHits text) ∧
      (generate_rule_based_summary form text).headline =
        form ++ ": " ++ (generate_rule_based_summary form text).impact ++ " — " ++
          prioritySuffix (signalHits text) := by
    intro form text
    unfold rule_summary generate_rule_based_summary prioritySuffix
    cases signalHits text with
    | mk f i c b g m =>
      cases f <;> cases i <;> cases c <;> cases b <;> cases g <;> cases m <;>
        exact ⟨rfl, rfl⟩
  have h2 : ∀ (form : String) (text : List Char),
      (signalHits text).buyback = true → (signalHits text).financing = true →
      (signalHits text).material = false →
      (rule_summary form text).impact = "Neutral" ∧
      (generate_rule_based_summary form text).impact = "Neutral" := by
    intro form text
    unfold rule_summary generate_rule_based_summary
    cases signalHits text with
    | mk f i c b g m =>
      intro hb hf hm
      have hb' : b = true := hb
      have hf' : f = true := hf
      have hm' : m = false := hm
      subst hb'; subst hf'; subst hm'
      cases i <;> cases c <;> exact ⟨rfl, rfl⟩
  refine ⟨h1, fun form text hb hf hm => ?_⟩
  have e1 := (h1 form text).1
  have e2 := (h1 form text).2
  rw [prioritySuffix_buyback _ hb] at e1 e2
  exact ⟨(h2 form text hb hf hm).1, e1 ▸ data_suffix_append _ _,
    (h2 form text hb hf hm).2, e2 ▸ data_suffix_append _ _⟩

/-- Witness for C2 at the concrete text "buyback warrant": buyback and
financing hit, material does not; impact is Neutral, headline ends with
"buyback mentioned". -/
theorem headline_priority_independent_of_score_w :
    ((signalHits ("buyback warrant").data).buyback = true ∧
     (signalHits ("buyback warrant").data).financing = true ∧
     (signalHits ("buyback warrant").data).material = false) ∧
    ((rule_summary "8-K" ("buyback warrant").data).impact = "Neutral" ∧
     ("buyback mentioned").data <:+
       (rule_summary "8-K" ("buyback warrant").data).headline.data ∧
     (generate_rule_based_summary "8-K" ("buyback warrant").data).impact = "Neutral" ∧
     ("buyback mentioned").data <:+
       (generate_rule_based_summary "8-K" ("buyback warrant").data).headline.data) :=
  ⟨⟨by decide, by decide, by decide⟩,
    headline_priority_independent_of_score.2 "8-K" ("buyback warrant").data
      (by decide) (by decide) (by decide)⟩

/-- Helper: with `ai_calls` already at `c`, at most `max_ai − c` further
filings can be displayed with an AI summary. -/
theorem renderLoop_countP_usedAI_le (use_ai : Bool) (max_ai : Nat)
    (l : List (String × String)) :
    ∀ c : Nat, (renderLoop use_ai max_ai c l).countP (fun o => o.usedAI) ≤ max_ai - c := by
  induction l with
  | nil => intro c; simp [renderLoop]
  | cons hd tl ih =>
    intro c
    obtain ⟨aiP, ruleP⟩ := hd
    cases hatt : (use_ai && decide (c < max_ai)) with
    | false => simpa [renderLoop, hatt] using ih c
    | true =>
      by_cases haiP : aiP = ""
      · simpa [renderLoop, hatt, haiP] using ih c
      · have hcm : c < max_ai := of_decide_eq_true ((Bool.and_eq_true _ _).mp hatt).2
        have htl := ih (c + 1)
        simp only [renderLoop, hatt, if_true, List.countP_cons]
        simp [haiP]
        omega

/-- Claim C9: in the render loop of `app.py` the counter `ai_calls` advances
only when `ai_one_paragraph` returned a non-empty paragraph (the `if p:`
guard in the loop body, embedded in `renderLoop`), so the number of filings
displayed with an AI summary in a run never exceeds `max_ai`, even when some
AI invocations fail and return the empty string. -/
theorem ai_summaries_never_exceed_budget (use_ai : Bool) (max_ai : Nat)
    (l : List (String × String)) :
    (renderLoop use_ai max_ai 0 l).countP (fun o => o.usedAI) ≤ max_ai := by
  simpa using renderLoop_countP_usedAI_le use_ai max_ai l 0

/-- Counterexample to claim C3 as stated: two displayed filings, AI enabled,
budget `max_ai = 1 < 2`, and the first AI invocation returns the empty
string. Both filings attempt the AI path — not just the first K — and the
filing beyond the budget shows the AI paragraph, not the rule-based one. -/
theorem ai_budget_first_k_cex :
    (renderLoop true 1 0 [("", "rule one"), ("ai paragraph", "rule two")]).map
        (fun o => o.attemptedAI) = [true, true] ∧
    (renderLoop true 1 0 [("", "rule one"), ("ai paragraph", "rule two")]).map
        (fun o => o.attemptedAI) ≠ [true, false] ∧
    (renderLoop true 1 0 [("", "rule one"), ("ai paragraph", "rule two")]).map
        (fun o => o.para) ≠ ["rule one", "rule two"] := by decide

/-- Helper: when every AI invocation returns a non-empty paragraph and the
counter starts at `c`, the first `max_ai − c` filings attempt and use the AI
path and all later filings use their rule-based paragraph. -/
theorem renderLoop_all_nonempty (max_ai : Nat) (l : List (String × String)) :
    ∀ c : Nat, (∀ pr ∈ l, pr.1 ≠ "") →
      renderLoop true max_ai c l =
        (l.take (max_ai - c)).map (fun pr => (⟨true, true, pr.1⟩ : RenderOut)) ++
        (l.drop (max_ai - c)).map (fun pr => (⟨false, false, pr.2⟩ : RenderOut)) := by
  induction l with
  | nil => intro c _; simp [renderLoop]
  | cons hd tl ih =>
    intro c hne
    obtain ⟨aiP, ruleP⟩ := hd
    have hhd : aiP ≠ "" := hne (aiP, ruleP) (List.mem_cons_self _ _)
    have htl : ∀ pr ∈ tl, pr.1 ≠ "" := fun pr h => hne pr (List.mem_cons_of_mem _ h)
    by_cases hcm : c < max_ai
    · have h1 : max_ai - c = (max_ai - (c + 1)) + 1 := by omega
      have hd2 : decide (c < max_ai) = true := decide_eq_true hcm
      rw [h1]
      simp only [renderLoop, hd2, Bool.and_self, if_true, List.take_succ_cons,
        List.drop_succ_cons, List.map_cons, List.cons_append]
      have hbne : (aiP != "") = true := by simp [hhd]
      rw [if_neg hhd, hbne, if_neg hhd, ih (c + 1) htl]
    · have h0 : max_ai - c = 0 := by omega
      have hd2 : decide (c < max_ai) = false := decide_eq_false hcm
      rw [h0]
      simp only [renderLoop, hd2, Bool.and_false, if_false, List.take_zero,
        List.drop_zero, List.map_nil, List.nil_append, List.map_cons]
      have := ih c htl
      rw [h0] at this
      simp only [List.take_zero, List.drop_zero, List.map_nil, List.nil_append] at this
      simp [this]

/-- Claim C3 amended: in one rendering pass with AI enabled, a filing
attempts the AI path while fewer than `max_ai` earlier invocations have
returned non-empty; when every AI invocation returns a non-empty paragraph
this gives exactly the claim — the first K filings in display order attempt
(and use) the AI path and the remaining N−K use the rule-based paragraph.
When an invocation returns empty it does not consume budget, so later
filings may still attempt the AI path (see the counterexample). -/
theorem ai_budget_first_k_amended (max_ai : Nat) (l : List (String × String))
    (hne : ∀ pr ∈ l, pr.1 ≠ "") :
    renderLoop true max_ai 0 l =
      (l.take max_ai).map (fun pr => (⟨true, true, pr.1⟩ : RenderOut)) ++
      (l.drop max_ai).map (fun pr => (⟨false, false, pr.2⟩ : RenderOut)) := by
  simpa using renderLoop_all_nonempty max_ai l 0 hne

/-- Witness for the amended C3: three filings, budget 1, all AI invocations
non-empty — exactly the first filing attempts and uses AI, the other two
use their rule-based paragraphs. -/
theorem ai_budget_first_k_amended_w :
    (∀ pr ∈ [("a", "r1"), ("b", "r2"), ("c", "r3")], pr.1 ≠ ("" : String)) ∧
    renderLoop true 1 0 [("a", "r1"), ("b", "r2"), ("c", "r3")] =
      ([("a", "r1"), ("b", "r2"), ("c", "r3")].take 1).map
        (fun pr => (⟨true, true, pr.1⟩ : RenderOut)) ++
      ([("a", "r1"), ("b", "r2"), ("c", "r3")].drop 1).map
        (fun pr => (⟨false, false, pr.2⟩ : RenderOut)) :=
  ⟨by decide, ai_budget_first_k_amended 1 _ (by decide)⟩

/-- Helper: whether a cache holds an entry for key `k` at all. -/
def cacheHasKey {K V : Type} [DecidableEq K]
    (c : List (K × V × Nat)) (k : K) : Bool :=
  c.any (fun e => decide (e.1 = k))

/-- Helper: a key never inserted misses at every time and TTL. -/
theorem cacheGet_of_not_hasKey {K V : Type} [DecidableEq K]
    (ttl now : Nat) (c : List (K × V × Nat)) (k : K)
    (h : cacheHasKey c k = false) : cacheGet ttl now c k = none := by
  induction c with
  | nil => rfl
  | cons hd tl ih =>
    obtain ⟨k', v, t⟩ := hd
    have h' := h
    simp only [cacheHasKey, List.any_cons, Bool.or_eq_false_iff] at h'
    have hk : ¬ k' = k := by
      intro he
      have := h'.1
      simp [he] at this
    simp only [cacheGet, if_neg hk]
    exact ih (by simpa [cacheHasKey] using h'.2)

/-- Claim C4 amended: the memoization layer stores only successful producer
results — when the producer raises on a miss, the error propagates, nothing
is stored, and a subsequent lookup on the unchanged cache invokes the
producer again (flag `true`) and caches its fresh value. However,
`ai_summarize_cached` catches AI failures internally and returns the empty
string as a successful result, so an empty/failed AI summary IS remembered
for the TTL window under the same key (see the counterexample); it is only
refreshed under a different key (credential/model/excerpt) or a cache
clear. -/
theorem cache_never_stores_failures {K V E : Type} [DecidableEq K]
    (ttl now now' : Nat) (c : List (K × V × Nat)) (k : K) (e : E) (v : V)
    (hmiss : cacheHasKey c k = false) :
    cachedCall ttl now c k (Except.error e) = Except.error e ∧
    cachedCall ttl now' c k (Except.ok v : Except E V) =
      Except.ok (v, (k, v, now') :: c, true) := by
  constructor <;>
    simp [cachedCall, cacheGet_of_not_hasKey _ _ _ _ hmiss]

/-- Witness for the amended C4: on an empty cache, an erroring producer
propagates its error, and the retry with a succeeding producer runs it and
stores the fresh value. -/
theorem cache_never_stores_failures_w :
    cacheHasKey ([] : List (Nat × String × Nat)) 0 = false ∧
    (cachedCall 3600 5 ([] : List (Nat × String × Nat)) 0
        (Except.error "boom") = Except.error "boom" ∧
      cachedCall 3600 9 ([] : List (Nat × String × Nat)) 0
        (Except.ok "doc text" : Except String String) =
        Except.ok ("doc text", (0, "doc text", 9) :: [], true)) :=
  ⟨by decide, cache_never_stores_failures 3600 5 9 [] 0 "boom" "doc text" (by decide)⟩

/-- Counterexample to claim C4 as stated: a failed AI call (the oracle
raises) makes `ai_summarize_cached` return the empty string, which IS
stored; a second lookup one second later — within the 7-day TTL and with
the transient failure gone — returns the remembered empty summary without
invoking the producer (flag `false`). -/
theorem empty_ai_summary_is_cached_cex :
    ai_summarize_cached 604800 0 [] "acc-1" "8-K" "excerpt" "gpt-4o-mini"
        "sk-live" true (Except.error ()) =
      ("", [(("acc-1", "8-K", "excerpt", "gpt-4o-mini", "sk-live"), "", 0)], true) ∧
    ai_summarize_cached 604800 1
        [(("acc-1", "8-K", "excerpt", "gpt-4o-mini", "sk-live"), "", 0)]
        "acc-1" "8-K" "excerpt" "gpt-4o-mini" "sk-live" true
        (Except.ok "recovered summary") =
      ("", [(("acc-1", "8-K", "excerpt", "gpt-4o-mini", "sk-live"), "", 0)], false) := by
  constructor <;> rfl

/-- Counterexample to claim C6 as stated: an input with eleven digits comes
back with all eleven digits — `zfill(10)` pads but never truncates — so the
result is non-empty yet not exactly 10 characters long. -/
theorem pad_cik_ten_digits_cex :
    pad_cik "12345678901" = "12345678901" ∧
    pad_cik "12345678901" ≠ "" ∧
    (pad_cik "12345678901").length ≠ 10 := by
  refine ⟨by decide, by decide, by decide⟩

/-- Claim C6 amended: `pad_cik` keeps exactly the digit characters of its
input and left-pads them with zeros to AT LEAST 10 characters: the given
examples hold, the result is empty iff the input has no digits, an input
with at most 10 digits (and at least one) yields exactly 10 characters, and
an input with 10 or more digits yields its digits unchanged (so more than
10 digits are not truncated to 10). -/
theorem pad_cik_amended :
    pad_cik "1829311" = "0001829311" ∧
    pad_cik "CIK-1829311" = "0001829311" ∧
    pad_cik "" = "" ∧
    (∀ s : String, pad_cik s = "" ↔ s.data.filter Char.isDigit = []) ∧
    (∀ s : String, (s.data.filter Char.isDigit).length ≤ 10 →
      pad_cik s ≠ "" → (pad_cik s).length = 10) ∧
    (∀ s : String, 10 ≤ (s.data.filter Char.isDigit).length →
      (pad_cik s).data = s.data.filter Char.isDigit) := by
  have hiff : ∀ s : String, pad_cik s = "" ↔ s.data.filter Char.isDigit = [] := by
    intro s
    by_cases hd : s.data.filter Char.isDigit = []
    · simp [pad_cik, hd]
    · have hne : (s.data.filter Char.isDigit).isEmpty = false := by
        simpa [List.isEmpty_iff] using hd
      rw [pad_cik]
      simp only [hne, Bool.false_eq_true, if_false]
      constructor
      · intro h
        have := congrArg String.data h
        simp only [zfill] at this
        rcases List.append_eq_nil.mp this with ⟨-, h2⟩
        exact absurd h2 hd
      · intro h; exact absurd h hd
  refine ⟨by decide, by decide, by decide, hiff, ?_, ?_⟩
  · intro s hlen hne
    have hd : ¬ s.data.filter Char.isDigit = [] := fun h => hne ((hiff s).mpr h)
    have hne' : (s.data.filter Char.isDigit).isEmpty = false := by
      simpa [List.isEmpty_iff] using hd
    rw [pad_cik]
    simp only [hne', Bool.false_eq_true, if_false]
    show (zfill 10 (s.data.filter Char.isDigit)).length = 10
    simp only [zfill, List.length_append, List.length_replicate]
    omega
  · intro s hlen
    have hd : ¬ s.data.filter Char.isDigit = [] := by
      intro h; rw [h] at hlen; simp at hlen
    have hne' : (s.data.filter Char.isDigit).isEmpty = false := by
      simpa [List.isEmpty_iff] using hd
    rw [pad_cik]
    simp only [hne', Bool.false_eq_true, if_false]
    show zfill 10 (s.data.filter Char.isDigit) = s.data.filter Char.isDigit
    have h0 : 10 - (s.data.filter Char.isDigit).length = 0 := by omega
    simp [zfill, h0]

/-- Witness for the amended C6 at the concrete input " 0042-abc ": four
digits, at least one, so the result is exactly 10 characters. -/
theorem pad_cik_amended_w :
    ((((" 0042-abc " : String)).data.filter Char.isDigit).length ≤ 10 ∧
      pad_cik " 0042-abc " ≠ "") ∧
    (pad_cik " 0042-abc ").length = 10 :=
  ⟨⟨by decide, by decide⟩,
    pad_cik_amended.2.2.2.2.1 " 0042-abc " (by decide) (by decide)⟩

/-- Claim C7: when the AI credential is absent `ai_one_paragraph` returns
the empty string — it is a total function, so it never raises — for every
accession, form, text, model, delay, cache state and oracle outcome; and
the render loop then displays the rule-based paragraph for such a filing
(never treating the empty string as an error), whatever the AI toggle and
budget are. -/
theorem ai_one_paragraph_missing_credential
    (ttl now : Nat) (c : List (AIKey × String × Nat)) (api_key : String)
    (avail : Bool) (accession form : String) (full_text : List Char)
    (model : String) (delay : Int) (oracle : Except Unit String)
    (ruleP : String) (use_ai : Bool) (max_ai ai_calls : Nat)
    (hkey : api_key = "") :
    ai_one_paragraph ttl now c api_key avail accession form full_text model
      delay oracle = "" ∧
    renderLoop use_ai max_ai ai_calls
      [(ai_one_paragraph ttl now c api_key avail accession form full_text
          model delay oracle, ruleP)] =
      [⟨use_ai && decide (ai_calls < max_ai), false, ruleP⟩] := by
  subst hkey
  have h1 : ai_one_paragraph ttl now c "" avail accession form full_text
      model delay oracle = "" := by
    simp [ai_one_paragraph]
  refine ⟨h1, ?_⟩
  rw [h1]
  simp [renderLoop]

/-- Witness for C7 at concrete inputs: empty credential, oracle succeeding,
AI enabled with budget 5 — the paragraph shown is the rule-based one. -/
theorem ai_one_paragraph_missing_credential_w :
    ("" : String) = "" ∧
    (ai_one_paragraph 3600 0 [] "" true "acc-1" "8-K" ("text").data
        "gpt-4o-mini" 1 (Except.ok "ai out") = "" ∧
      renderLoop true 5 0
        [(ai_one_paragraph 3600 0 [] "" true "acc-1" "8-K" ("text").data
            "gpt-4o-mini" 1 (Except.ok "ai out"), "rule para")] =
        [⟨true && decide (0 < 5), false, "rule para"⟩]) :=
  ⟨rfl, ai_one_paragraph_missing_credential 3600 0 [] "" true "acc-1" "8-K"
    ("text").data "gpt-4o-mini" 1 (Except.ok "ai out") "rule para" true 5 0 rfl⟩
